import Mathlib

/-!
Shallow embedding of the Reddit persona analyzer (src/main.py, src/config.py).

Python strings are modelled as `List Char`; Python `None`-able values as
`Option`; raised exceptions as `Except` errors.  Effectful steps (the HTTP
completion request, the file write, the platform listing calls) are modelled
by passing the data they would observe in as oracle arguments and recording
the emitted effects in an explicit result structure.  Timestamps (Python
floats from the platform, `datetime.now()` strings) are modelled as opaque
integer/string parameters; no claim depends on their values.
-/

set_option autoImplicit false

def str (s : String) : List Char := s.toList

/-! ### Error taxonomy

`main.py` raises `ValueError` for the invalid-identifier, no-content and
configuration failures and a bare `Exception` for completion failures; the
spec's taxonomy names are used for the constructors, each carrying the data
interpolated into the corresponding Python message. -/

inductive PError where
  | invalidIdentifier : List Char → PError
  | noContentFound : List Char → PError
  | completionError : Int → List Char → PError
  | malformedResponse : PError
  | configurationError : List Char → PError
deriving DecidableEq

/-! ### Identity resolver: `RedditScraper.extract_username` (main.py:64-77)

The URL branch calls `urllib.parse.urlparse` and works on
`parsed.path.strip('/').split('/')`.  The functions below model CPython's
`urlparse` path extraction for inputs free of whitespace and control
characters (the stdlib's WHATWG whitespace stripping is the identity on
such inputs). -/

/-- Characters CPython accepts inside a URL scheme (`scheme_chars`). -/
def scheme_char (c : Char) : Bool :=
  c.isAlpha || c.isDigit || c == '+' || c == '-' || c == '.'

/-- Model of `urlsplit`'s scheme detection: find the first `':'`; if every
character before it is a scheme character and there is at least one, split
the scheme off.  `acc` holds the scheme characters read so far, reversed. -/
def split_scheme (acc : List Char) : List Char → Option (List Char × List Char)
  | [] => none
  | c :: cs =>
    if c = ':' then
      if acc.isEmpty then none else some (acc.reverse, cs)
    else if scheme_char c then split_scheme (c :: acc) cs
    else none

def not_netloc_delim (c : Char) : Bool := !(c == '/' || c == '?' || c == '#')

/-- Model of `_splitnetloc`: when the remainder starts with `"//"`, the
network location extends to the first `'/'`, `'?'` or `'#'`; the path is
what follows (keeping that delimiter when it is `'/'`). -/
def drop_netloc : List Char → List Char
  | '/' :: '/' :: rest => rest.dropWhile not_netloc_delim
  | l => l

/-- Model of `urlsplit`'s fragment and query removal from the path. -/
def strip_frag_query (l : List Char) : List Char :=
  (l.takeWhile (fun c => c != '#')).takeWhile (fun c => c != '?')

/-- Schemes for which `urlparse` splits `;params` off the last path segment
(CPython's `uses_params`, which also contains the empty scheme). -/
def uses_params : List (List Char) :=
  [[], str "ftp", str "hdl", str "prospero", str "http", str "imap",
   str "https", str "shttp", str "rtsp", str "rtspu", str "sip",
   str "sips", str "mms", str "sftp", str "tel"]

def split_semi (l : List Char) : List Char := l.takeWhile (fun c => c != ';')

/-- Model of `_splitparams`: drop a `;params` suffix from the last path
segment (from the whole path when it contains no `'/'`). -/
def splitparams_path (p : List Char) : List Char :=
  if '/' ∈ p then
    let init := (p.reverse.dropWhile (fun c => c != '/')).reverse
    let lastSeg := (p.reverse.takeWhile (fun c => c != '/')).reverse
    if ';' ∈ lastSeg then init ++ split_semi lastSeg else p
  else if ';' ∈ p then split_semi p else p

/-- The `.path` component of `urllib.parse.urlparse(url)`. -/
def urlparse_path (url : List Char) : List Char :=
  match split_scheme [] url with
  | some (sch, rest) =>
    let p := strip_frag_query (drop_netloc rest)
    if (sch.map Char.toLower) ∈ uses_params ∧ ';' ∈ p then splitparams_path p else p
  | none =>
    let p := strip_frag_query (drop_netloc url)
    if ';' ∈ p then splitparams_path p else p

/-- Python `path.strip('/')`: remove leading and trailing slashes. -/
def strip_slash (l : List Char) : List Char :=
  ((l.dropWhile (fun c => c == '/')).reverse.dropWhile (fun c => c == '/')).reverse

/-- Helper for Python `split('/')`: current (leftmost) field plus the
remaining fields. -/
def split_slash_aux : List Char → List Char × List (List Char)
  | [] => ([], [])
  | c :: cs =>
    let r := split_slash_aux cs
    if c = '/' then ([], r.1 :: r.2) else (c :: r.1, r.2)

/-- Python `s.split('/')` (always at least one field). -/
def split_slash (l : List Char) : List (List Char) :=
  (split_slash_aux l).1 :: (split_slash_aux l).2

/-- Python `list.index(x)`: position of the first occurrence. -/
def idx_of (a : List Char) : List (List Char) → Option Nat
  | [] => none
  | x :: xs => if x = a then some 0 else (idx_of a xs).map (· + 1)

/-- `parsed.path.strip('/').split('/')` for a given input URL. -/
def url_path_parts (s : List Char) : List (List Char) :=
  split_slash (strip_slash (urlparse_path s))

/-- Python `s.replace('u/', '')`: remove every occurrence of `"u/"` in one
left-to-right pass. -/
def remove_u_slash : List Char → List Char
  | 'u' :: '/' :: cs => remove_u_slash cs
  | c :: cs => c :: remove_u_slash cs
  | [] => []

/-- Python `s.replace('/u/', '')`: remove every occurrence of `"/u/"` in one
left-to-right pass. -/
def remove_slash_u_slash : List Char → List Char
  | '/' :: 'u' :: '/' :: cs => remove_slash_u_slash cs
  | c :: cs => c :: remove_slash_u_slash cs
  | [] => []

/-- `RedditScraper.extract_username` (main.py:64-77). -/
def extract_username (s : List Char) : Except PError (List Char) :=
  if (str "http").isPrefixOf s then
    match idx_of (str "user") (url_path_parts s) with
    | some i =>
      match (url_path_parts s).get? (i + 1) with
      | some u => Except.ok u
      | none => Except.error (PError.invalidIdentifier s)
    | none => Except.error (PError.invalidIdentifier s)
  else
    Except.ok (remove_slash_u_slash (remove_u_slash s))

/-! ### Content records and the scraper (main.py:34-123) -/

/-- The `RedditContent` dataclass (main.py:34-44); `created_utc` is a float
in the source, modelled as an integer since no logic inspects it. -/
structure RedditContent where
  content_type : List Char
  title : List Char
  body : List Char
  score : Int
  created_utc : Int
  subreddit : List Char
  url : List Char
  permalink : List Char
deriving DecidableEq

/-- A raw submission as returned by the platform listing call. -/
structure RawSubmission where
  title : List Char
  selftext : List Char
  score : Int
  created_utc : Int
  subreddit : List Char
  url : List Char
  permalink : List Char
deriving DecidableEq

/-- A raw comment as returned by the platform listing call; `body = none`
models an object without a `body` attribute (`hasattr` check). -/
structure RawComment where
  body : Option (List Char)
  score : Int
  created_utc : Int
  subreddit : List Char
  permalink : List Char
deriving DecidableEq

def submission_to_content (s : RawSubmission) : RedditContent :=
  { content_type := str "post"
    title := s.title
    body := s.selftext
    score := s.score
    created_utc := s.created_utc
    subreddit := s.subreddit
    url := s.url
    permalink := str "https://reddit.com" ++ s.permalink }

def comment_to_content (c : RawComment) (body : List Char) : RedditContent :=
  { content_type := str "comment"
    title := str "Comment in r/" ++ c.subreddit
    body := body
    score := c.score
    created_utc := c.created_utc
    subreddit := c.subreddit
    url := []
    permalink := str "https://reddit.com" ++ c.permalink }

/-- The posts loop of `scrape_user_data` (main.py:90-101): keep submissions
with a non-empty selftext or title. -/
def scrape_posts (subs : List RawSubmission) : List RedditContent :=
  (subs.filter (fun s => !s.selftext.isEmpty || !s.title.isEmpty)).map submission_to_content

/-- The comments loop of `scrape_user_data` (main.py:105-116): keep comments
that have a non-empty `body` attribute. -/
def scrape_comments (cs : List RawComment) : List RedditContent :=
  cs.filterMap (fun c =>
    match c.body with
    | some b => if b.isEmpty then none else some (comment_to_content c b)
    | none => none)

/-- `RedditScraper.scrape_user_data` (main.py:79-123), with the platform's
listing results passed in as oracles (each already bounded by `limit=`). -/
def scrape_user_data (subs : List RawSubmission) (cs : List RawComment) :
    List RedditContent × List RedditContent :=
  (scrape_posts subs, scrape_comments cs)

/-! ### Corpus formatter: `prepare_content_for_analysis` (main.py:138-159) -/

def nat_str (n : Nat) : List Char := (toString n).toList

def int_str (i : Int) : List Char := (toString i).toList

/-- The `Content:` line for a post (main.py:147): bodies longer than 500
characters are cut to the first 500 and marked with `"..."`. -/
def post_content_line (body : List Char) : List Char :=
  if body.length > 500 then str "Content: " ++ body.take 500 ++ str "...\n"
  else str "Content: " ++ body ++ str "\n"

/-- The `Content:` line for a comment (main.py:155), threshold 300. -/
def comment_content_line (body : List Char) : List Char :=
  if body.length > 300 then str "Content: " ++ body.take 300 ++ str "...\n"
  else str "Content: " ++ body ++ str "\n"

/-- The text appended for post number `i` (main.py:144-149). -/
def post_block (i : Nat) (p : RedditContent) : List Char :=
  str "\nPOST " ++ nat_str i ++ str ":\n"
    ++ str "Subreddit: r/" ++ p.subreddit ++ str "\n"
    ++ str "Title: " ++ p.title ++ str "\n"
    ++ post_content_line p.body
    ++ str "Score: " ++ int_str p.score ++ str "\n"
    ++ str "Link: " ++ p.permalink ++ str "\n"

/-- The text appended for comment number `i` (main.py:153-157). -/
def comment_block (i : Nat) (c : RedditContent) : List Char :=
  str "\nCOMMENT " ++ nat_str i ++ str ":\n"
    ++ str "Subreddit: r/" ++ c.subreddit ++ str "\n"
    ++ comment_content_line c.body
    ++ str "Score: " ++ int_str c.score ++ str "\n"
    ++ str "Link: " ++ c.permalink ++ str "\n"

/-- `for i, post in enumerate(posts[:25], 1)` (main.py:143): the blocks of
the POSTS section in emission order. -/
def post_blocks (posts : List RedditContent) : List (List Char) :=
  ((posts.take 25).enumFrom 1).map (fun ip => post_block ip.1 ip.2)

/-- `for i, comment in enumerate(comments[:25], 1)` (main.py:152). -/
def comment_blocks (comments : List RedditContent) : List (List Char) :=
  ((comments.take 25).enumFrom 1).map (fun ic => comment_block ic.1 ic.2)

/-- `PersonaAnalyzer.prepare_content_for_analysis` (main.py:138-159). -/
def prepare_content_for_analysis (posts comments : List RedditContent) : List Char :=
  str "REDDIT USER CONTENT FOR ANALYSIS:\n\n"
    ++ str "=== POSTS ===\n" ++ (post_blocks posts).flatten
    ++ str "\n=== COMMENTS ===\n" ++ (comment_blocks comments).flatten

/-! ### Persona requester: `analyze_persona` (main.py:161-214) -/

/-- The observed completion-endpoint response: HTTP status, body text, and
the value at `json()['choices'][0]['message']['content']` when that field
path exists. -/
structure HttpResponse where
  status_code : Int
  text : List Char
  choice_content : Option (List Char)
deriving DecidableEq

/-- `PersonaAnalyzer.analyze_persona` (main.py:161-214): a single request;
non-200 statuses raise carrying the status and response body (main.py:206-209),
otherwise the first choice's message content is extracted (main.py:210-211). -/
def analyze_persona (content username : List Char) (resp : HttpResponse) :
    Except PError (List Char) :=
  if resp.status_code ≠ 200 then
    Except.error (PError.completionError resp.status_code resp.text)
  else
    match resp.choice_content with
    | some c => Except.ok c
    | none => Except.error PError.malformedResponse

/-! ### Pipeline: `PersonaGenerator.generate_persona` (main.py:216-269) -/

/-- `self.output_dir = "output"` (main.py:225). -/
def persona_output_dir : List Char := str "output"

/-- The text written to the report file (main.py:252-262). -/
def persona_file_contents (username date_str : List Char) (nposts ncomments : Nat)
    (persona : List Char) : List Char :=
  str "REDDIT USER PERSONA ANALYSIS\n"
    ++ List.replicate 50 '=' ++ str "\n\n"
    ++ str "Username: " ++ username ++ str "\n"
    ++ str "Analysis Date: " ++ date_str ++ str "\n"
    ++ str "Posts Analyzed: " ++ nat_str nposts ++ str "\n"
    ++ str "Comments Analyzed: " ++ nat_str ncomments ++ str "\n"
    ++ str "\n" ++ List.replicate 50 '=' ++ str "\n\n"
    ++ persona
    ++ str "\n\n" ++ List.replicate 50 '=' ++ str "\n"
    ++ str "ANALYSIS COMPLETE\n"

instance {ε α : Type} [DecidableEq ε] [DecidableEq α] : DecidableEq (Except ε α) := fun a b =>
  match a, b with
  | Except.ok x, Except.ok y =>
    if h : x = y then isTrue (congrArg _ h) else isFalse (fun hc => h (Except.ok.inj hc))
  | Except.error x, Except.error y =>
    if h : x = y then isTrue (congrArg _ h) else isFalse (fun hc => h (Except.error.inj hc))
  | Except.ok _, Except.error _ => isFalse Except.noConfusion
  | Except.error _, Except.ok _ => isFalse Except.noConfusion

/-- Observable outcome of one `generate_persona` run: whether the completion
endpoint was called, the file write (path, contents) if any, and the returned
path or raised error. -/
structure GenResult where
  api_called : Bool
  file_written : Option (List Char × List Char)
  result : Except PError (List Char)
deriving DecidableEq

/-- `PersonaGenerator.generate_persona` (main.py:228-269).  The platform
listing results, the completion response and the two `datetime.now()`
renderings (`%Y%m%d_%H%M%S` for the filename, `%Y-%m-%d %H:%M:%S` for the
header) are oracle arguments. -/
def generate_persona (input : List Char)
    (subs : List RawSubmission) (rcs : List RawComment)
    (resp : HttpResponse) (timestamp date_str : List Char) : GenResult :=
  match extract_username input with
  | Except.error e => { api_called := false, file_written := none, result := Except.error e }
  | Except.ok username =>
    let posts := scrape_posts subs
    let comments := scrape_comments rcs
    if posts.isEmpty && comments.isEmpty then
      { api_called := false, file_written := none
        result := Except.error (PError.noContentFound username) }
    else
      let content := prepare_content_for_analysis posts comments
      match analyze_persona content username resp with
      | Except.error e =>
        { api_called := true, file_written := none, result := Except.error e }
      | Except.ok persona =>
        let filename := username ++ str "_persona_" ++ timestamp ++ str ".txt"
        let filepath := persona_output_dir ++ str "/" ++ filename
        { api_called := true
          file_written := some (filepath,
            persona_file_contents username date_str posts.length comments.length persona)
          result := Except.ok filepath }

/-! ### Configuration: `load_config` (main.py:271-295) -/

/-- The environment variables `load_config` reads; `none` models an unset
variable (`os.getenv` returning `None`). -/
structure Env where
  reddit_client_id : Option (List Char)
  reddit_client_secret : Option (List Char)
  reddit_user_agent : Option (List Char)
  openrouter_api_key : Option (List Char)
  ai_api_url : Option (List Char)
deriving DecidableEq

/-- `os.getenv(key, default)`. -/
def getenv_default (v : Option (List Char)) (d : List Char) : List Char := v.getD d

/-- Python falsiness of a config value: `None` or the empty string. -/
def is_falsy : Option (List Char) → Bool
  | none => true
  | some s => s.isEmpty

def to_upper (l : List Char) : List Char := l.map Char.toUpper

/-- Python `', '.join(xs)`. -/
def join_comma : List (List Char) → List Char
  | [] => []
  | [x] => x
  | x :: xs => x ++ str ", " ++ join_comma xs

/-- The `reddit_config` and `ai_config` dict entries in iteration order
(main.py:273-282). -/
def config_pairs (env : Env) : List (List Char × Option (List Char)) :=
  [(str "client_id", env.reddit_client_id),
   (str "client_secret", env.reddit_client_secret),
   (str "user_agent",
     some (getenv_default env.reddit_user_agent (str "RedditPersonaAnalyzer/1.0"))),
   (str "api_key", env.openrouter_api_key),
   (str "api_url",
     some (getenv_default env.ai_api_url (str "https://openrouter.ai/api/v1/chat/completions")))]

/-- `missing_configs` (main.py:285-291): uppercased keys of every falsy
config entry, in iteration order. -/
def missing_configs (env : Env) : List (List Char) :=
  ((config_pairs env).filter (fun kv => is_falsy kv.2)).map (fun kv => to_upper kv.1)

/-- `load_config` (main.py:271-295). -/
def load_config (env : Env) :
    Except PError (List (List Char × Option (List Char))) :=
  if (missing_configs env).isEmpty then Except.ok (config_pairs env)
  else Except.error (PError.configurationError
    (str "Missing required environment variables: " ++ join_comma (missing_configs env)))

/-! ### Helper lemmas for the identity resolver -/

/-- Substring detector for `"u/"`, used to state which inputs the handle
branch leaves unchanged. -/
def has_u_slash : List Char → Bool
  | 'u' :: '/' :: _ => true
  | _ :: cs => has_u_slash cs
  | [] => false

/-- Substring detector for `"/u/"`. -/
def has_slash_u_slash : List Char → Bool
  | '/' :: 'u' :: '/' :: _ => true
  | _ :: cs => has_slash_u_slash cs
  | [] => false

/-- Characters that may appear in the host, username and trailing-path
hypotheses of the URL theorems: letters, digits, `'-'`, `'_'`, `'.'`.  These
exclude every delimiter `urlparse` reacts to. -/
def url_ok_char (c : Char) : Bool :=
  c.isAlpha || c.isDigit || c == '-' || c == '_' || c == '.'

lemma url_ok_char_ne {c : Char} (h : url_ok_char c = true) :
    c ≠ '/' ∧ c ≠ '?' ∧ c ≠ '#' ∧ c ≠ ';' ∧ c ≠ ':' := by
  refine ⟨?_, ?_, ?_, ?_, ?_⟩ <;> intro he <;> rw [he] at h <;> exact absurd h (by decide)

lemma not_netloc_delim_of_url_ok {c : Char} (h : url_ok_char c = true) :
    not_netloc_delim c = true := by
  obtain ⟨h1, h2, h3, _, _⟩ := url_ok_char_ne h
  simp [not_netloc_delim, h1, h2, h3]

lemma scheme_char_of_http {c : Char} (h : c ∈ str "http") : scheme_char c = true := by
  rcases List.mem_cons.mp h with rfl | h
  · decide
  rcases List.mem_cons.mp h with rfl | h
  · decide
  rcases List.mem_cons.mp h with rfl | h
  · decide
  rcases List.mem_cons.mp h with rfl | h
  · decide
  exact absurd h (List.not_mem_nil c)

lemma dropWhile_append_of_all {p : Char → Bool} {l₁ : List Char} (l₂ : List Char)
    (h : ∀ c ∈ l₁, p c = true) : (l₁ ++ l₂).dropWhile p = l₂.dropWhile p := by
  induction l₁ with
  | nil => rfl
  | cons c cs ih =>
    rw [List.cons_append, List.dropWhile_cons, if_pos (h c (List.mem_cons_self c cs))]
    exact ih (fun x hx => h x (List.mem_cons_of_mem _ hx))

lemma takeWhile_eq_self_of_all {p : Char → Bool} {l : List Char}
    (h : ∀ c ∈ l, p c = true) : l.takeWhile p = l := by
  induction l with
  | nil => rfl
  | cons c cs ih =>
    rw [List.takeWhile_cons, if_pos (h c (List.mem_cons_self c cs)),
      ih (fun x hx => h x (List.mem_cons_of_mem _ hx))]

lemma split_scheme_spec (sch : List Char) : ∀ (acc rest : List Char),
    (∀ c ∈ sch, scheme_char c = true) → (acc ≠ [] ∨ sch ≠ []) →
    split_scheme acc (sch ++ ':' :: rest) = some (acc.reverse ++ sch, rest) := by
  induction sch with
  | nil =>
    intro acc rest _ hd
    have hacc : acc ≠ [] := by
      rcases hd with h | h
      · exact h
      · exact absurd rfl h
    rw [List.nil_append]
    simp [split_scheme, List.isEmpty_eq_false.mpr hacc]
  | cons c cs ih =>
    intro acc rest hall hd
    have hc : scheme_char c = true := hall c (List.mem_cons_self c cs)
    have hcne : c ≠ ':' := fun he => by rw [he] at hc; exact absurd hc (by decide)
    rw [List.cons_append]
    show split_scheme acc (c :: (cs ++ ':' :: rest)) = _
    rw [split_scheme, if_neg hcne, if_pos hc,
      ih (c :: acc) rest (fun x hx => hall x (List.mem_cons_of_mem _ hx)) (Or.inl (by simp))]
    simp [List.reverse_cons, List.append_assoc]

lemma reverse_dropWhile_slash (pre l : List Char) (hl : ∀ c ∈ l, c ≠ '/') (hne : l ≠ []) :
    ((pre ++ l).reverse.dropWhile (fun c => c == '/')).reverse = pre ++ l := by
  obtain ⟨m, ms, hrev⟩ : ∃ m ms, l.reverse = m :: ms := by
    cases hrev : l.reverse with
    | nil => exact absurd (List.reverse_eq_nil_iff.mp hrev) hne
    | cons m ms => exact ⟨m, ms, rfl⟩
  have hm : m ∈ l := List.mem_reverse.mp (hrev ▸ List.mem_cons_self m ms)
  have hmne : (m == '/') = false := beq_eq_false_iff_ne.mpr (hl m hm)
  rw [List.reverse_append, hrev, List.cons_append, List.dropWhile_cons]
  simp only [hmne, Bool.false_eq_true, if_false]
  rw [← List.cons_append, ← hrev, ← List.reverse_append, List.reverse_reverse]

lemma split_slash_aux_no_slash (l : List Char) (h : ∀ c ∈ l, c ≠ '/') :
    split_slash_aux l = (l, []) := by
  induction l with
  | nil => rfl
  | cons c cs ih =>
    simp only [split_slash_aux, ih (fun x hx => h x (List.mem_cons_of_mem _ hx)),
      if_neg (h c (List.mem_cons_self c cs))]

lemma split_slash_aux_append (l₁ : List Char) : ∀ (l₂ : List Char), (∀ c ∈ l₁, c ≠ '/') →
    split_slash_aux (l₁ ++ '/' :: l₂) =
      (l₁, (split_slash_aux l₂).1 :: (split_slash_aux l₂).2) := by
  induction l₁ with
  | nil => intro l₂ _; simp [split_slash_aux]
  | cons c cs ih =>
    intro l₂ h
    rw [List.cons_append]
    simp only [split_slash_aux, ih l₂ (fun x hx => h x (List.mem_cons_of_mem _ hx)),
      if_neg (h c (List.mem_cons_self c cs))]

lemma split_slash_append (l₁ l₂ : List Char) (h : ∀ c ∈ l₁, c ≠ '/') :
    split_slash (l₁ ++ '/' :: l₂) = l₁ :: split_slash l₂ := by
  simp [split_slash, split_slash_aux_append l₁ l₂ h]

lemma split_slash_no_slash (l : List Char) (h : ∀ c ∈ l, c ≠ '/') :
    split_slash l = [l] := by
  simp [split_slash, split_slash_aux_no_slash l h]

lemma idx_of_eq_none {a : List Char} : ∀ {l : List (List Char)}, a ∉ l → idx_of a l = none := by
  intro l
  induction l with
  | nil => intro _; rfl
  | cons x xs ih =>
    intro hmem
    have hx : ¬ x = a := fun he => hmem (he ▸ List.mem_cons_self x xs)
    rw [idx_of, if_neg hx, ih (fun hm => hmem (List.mem_cons_of_mem _ hm))]
    rfl

lemma mem_path_cases {c : Char} {name tail : List Char}
    (hc : c ∈ ('/' :: 'u' :: 's' :: 'e' :: 'r' :: '/' :: (name ++ '/' :: tail))) :
    c = '/' ∨ c = 'u' ∨ c = 's' ∨ c = 'e' ∨ c = 'r' ∨ c ∈ name ∨ c ∈ tail := by
  simp only [List.mem_cons, List.mem_append] at hc
  tauto

lemma path_char_ok {c : Char} {name tail : List Char}
    (hname : ∀ c ∈ name, url_ok_char c = true)
    (htail : ∀ c ∈ tail, url_ok_char c = true)
    (hc : c ∈ ('/' :: 'u' :: 's' :: 'e' :: 'r' :: '/' :: (name ++ '/' :: tail))) :
    c ≠ '#' ∧ c ≠ '?' ∧ c ≠ ';' := by
  rcases mem_path_cases hc with rfl | rfl | rfl | rfl | rfl | h | h
  · exact ⟨by decide, by decide, by decide⟩
  · exact ⟨by decide, by decide, by decide⟩
  · exact ⟨by decide, by decide, by decide⟩
  · exact ⟨by decide, by decide, by decide⟩
  · exact ⟨by decide, by decide, by decide⟩
  · obtain ⟨_, h2, h3, h4, _⟩ := url_ok_char_ne (hname c h)
    exact ⟨h3, h2, h4⟩
  · obtain ⟨_, h2, h3, h4, _⟩ := url_ok_char_ne (htail c h)
    exact ⟨h3, h2, h4⟩

lemma user_marker_char_ne_slash {c : Char} (h : c ∈ (['u', 's', 'e', 'r'] : List Char)) :
    c ≠ '/' := by
  rcases List.mem_cons.mp h with rfl | h
  · decide
  rcases List.mem_cons.mp h with rfl | h
  · decide
  rcases List.mem_cons.mp h with rfl | h
  · decide
  rcases List.mem_cons.mp h with rfl | h
  · decide
  exact absurd h (List.not_mem_nil c)
lemma url_path_parts_user (sch host name tail : List Char)
    (hsch : ∀ c ∈ sch, scheme_char c = true)
    (hhost : ∀ c ∈ host, url_ok_char c = true)
    (hname : ∀ c ∈ name, url_ok_char c = true)
    (htail : ∀ c ∈ tail, url_ok_char c = true)
    (hn : name ≠ []) :
    ∃ rest, url_path_parts (str "http" ++ sch ++ str "://" ++ host ++ str "/user/"
        ++ name ++ str "/" ++ tail) = str "user" :: name :: rest := by
  have hname' : ∀ c ∈ name, c ≠ '/' := fun c hc => (url_ok_char_ne (hname c hc)).1
  have htail' : ∀ c ∈ tail, c ≠ '/' := fun c hc => (url_ok_char_ne (htail c hc)).1
  have hin : str "http" ++ sch ++ str "://" ++ host ++ str "/user/" ++ name ++ str "/" ++ tail
      = (str "http" ++ sch) ++ ':' :: ('/' :: '/' ::
          (host ++ '/' :: 'u' :: 's' :: 'e' :: 'r' :: '/' :: (name ++ '/' :: tail))) := by
    simp only [List.append_assoc]
    rfl
  -- scheme removal
  have hs1 : split_scheme [] ((str "http" ++ sch) ++ ':' :: ('/' :: '/' ::
        (host ++ '/' :: 'u' :: 's' :: 'e' :: 'r' :: '/' :: (name ++ '/' :: tail))))
      = some (str "http" ++ sch, '/' :: '/' ::
        (host ++ '/' :: 'u' :: 's' :: 'e' :: 'r' :: '/' :: (name ++ '/' :: tail))) := by
    rw [split_scheme_spec]
    · simp
    · intro c hc
      rcases List.mem_append.mp hc with h | h
      · exact scheme_char_of_http h
      · exact hsch c h
    · exact Or.inr (fun hnil => absurd (List.append_eq_nil.mp hnil).1 (by decide))
  -- netloc removal
  have hdw : drop_netloc ('/' :: '/' ::
        (host ++ '/' :: 'u' :: 's' :: 'e' :: 'r' :: '/' :: (name ++ '/' :: tail)))
      = '/' :: 'u' :: 's' :: 'e' :: 'r' :: '/' :: (name ++ '/' :: tail) := by
    show (host ++ '/' :: 'u' :: 's' :: 'e' :: 'r' :: '/' :: (name ++ '/' :: tail)).dropWhile
        not_netloc_delim = _
    rw [dropWhile_append_of_all _ (fun c hc => not_netloc_delim_of_url_ok (hhost c hc)),
      List.dropWhile_cons, if_neg (by decide)]
  -- fragment/query removal is the identity here
  have hfq : strip_frag_query ('/' :: 'u' :: 's' :: 'e' :: 'r' :: '/' :: (name ++ '/' :: tail))
      = '/' :: 'u' :: 's' :: 'e' :: 'r' :: '/' :: (name ++ '/' :: tail) := by
    have h1 : ('/' :: 'u' :: 's' :: 'e' :: 'r' :: '/' :: (name ++ '/' :: tail)).takeWhile
        (fun c => c != '#') = '/' :: 'u' :: 's' :: 'e' :: 'r' :: '/' :: (name ++ '/' :: tail) :=
      takeWhile_eq_self_of_all
        (fun c hc => bne_iff_ne.mpr (path_char_ok hname htail hc).1)
    rw [strip_frag_query, h1]
    exact takeWhile_eq_self_of_all
      (fun c hc => bne_iff_ne.mpr (path_char_ok hname htail hc).2.1)
  -- urlparse path
  have hp : urlparse_path ((str "http" ++ sch) ++ ':' :: ('/' :: '/' ::
        (host ++ '/' :: 'u' :: 's' :: 'e' :: 'r' :: '/' :: (name ++ '/' :: tail))))
      = '/' :: 'u' :: 's' :: 'e' :: 'r' :: '/' :: (name ++ '/' :: tail) := by
    rw [urlparse_path, hs1]
    simp only [hdw, hfq]
    rw [if_neg]
    intro hco
    exact absurd rfl (path_char_ok hname htail hco.2).2.2
  rw [url_path_parts, hin, hp]
  -- strip('/') and split('/')
  have hds : ('/' :: 'u' :: 's' :: 'e' :: 'r' :: '/' :: (name ++ '/' :: tail)).dropWhile
      (fun c => c == '/') = 'u' :: 's' :: 'e' :: 'r' :: '/' :: (name ++ '/' :: tail) := by
    rw [List.dropWhile_cons, if_pos (by decide), List.dropWhile_cons, if_neg (by decide)]
  cases tail with
  | nil =>
    refine ⟨[], ?_⟩
    have hq : ('u' :: 's' :: 'e' :: 'r' :: '/' :: (name ++ '/' :: ([] : List Char)))
        = (['u', 's', 'e', 'r', '/'] ++ name) ++ ['/'] := by
      simp only [List.append_assoc]
      rfl
    have hss : strip_slash ('/' :: 'u' :: 's' :: 'e' :: 'r' :: '/' ::
          (name ++ '/' :: ([] : List Char)))
        = ['u', 's', 'e', 'r', '/'] ++ name := by
      rw [strip_slash, hds, hq, List.reverse_append]
      show ((['u', 's', 'e', 'r', '/'] ++ name).reverse.dropWhile (fun c => c == '/')).reverse = _
      exact reverse_dropWhile_slash _ name hname' hn
    rw [hss]
    show split_slash (['u', 's', 'e', 'r'] ++ '/' :: name) = _
    rw [split_slash_append _ _ (fun c hc => user_marker_char_ne_slash hc),
      split_slash_no_slash name hname']
    rfl
  | cons t ts =>
    refine ⟨[t :: ts], ?_⟩
    have hq : ('u' :: 's' :: 'e' :: 'r' :: '/' :: (name ++ '/' :: (t :: ts)))
        = ((['u', 's', 'e', 'r', '/'] ++ name) ++ ['/']) ++ (t :: ts) := by
      simp only [List.append_assoc]
      rfl
    have hss : strip_slash ('/' :: 'u' :: 's' :: 'e' :: 'r' :: '/' :: (name ++ '/' :: (t :: ts)))
        = 'u' :: 's' :: 'e' :: 'r' :: '/' :: (name ++ '/' :: (t :: ts)) := by
      rw [strip_slash, hds, hq]
      exact reverse_dropWhile_slash _ (t :: ts) htail' (by simp)
    rw [hss]
    show split_slash (['u', 's', 'e', 'r'] ++ '/' :: (name ++ '/' :: (t :: ts))) = _
    rw [split_slash_append _ _ (fun c hc => user_marker_char_ne_slash hc),
      split_slash_append name _ hname', split_slash_no_slash (t :: ts) htail']
    rfl

/-- C1 counterexample: the input `ftp://host/user/bob/` begins with a URL scheme
and has the form `<scheme>://host/user/<name>/...`, yet `extract_username`
returns the whole input unchanged instead of `bob` (and raises nothing),
because the code only treats inputs starting with `"http"` as URLs. -/
theorem C1_counterexample :
    extract_username (str "ftp://host/user/bob/") = Except.ok (str "ftp://host/user/bob/") ∧
    Except.ok (str "ftp://host/user/bob/") ≠ (Except.ok (str "bob") : Except PError (List Char)) := by
  decide

/-- C1 (amended): for every input that begins with `"http"` and has the form
`<scheme>://host/user/<name>/...` (components free of URL delimiters),
`extract_username` returns `<name>`; and for every input beginning with
`"http"` whose parsed path contains no `user` segment it fails with the
invalid-identifier `ValueError`. -/
theorem C1_amended_username_extraction :
    (∀ sch host name tail : List Char,
      (∀ c ∈ sch, scheme_char c = true) →
      (∀ c ∈ host, url_ok_char c = true) →
      (∀ c ∈ name, url_ok_char c = true) →
      (∀ c ∈ tail, url_ok_char c = true) →
      name ≠ [] →
      extract_username (str "http" ++ sch ++ str "://" ++ host ++ str "/user/"
          ++ name ++ str "/" ++ tail) = Except.ok name) ∧
    (∀ s : List Char, (str "http").isPrefixOf s = true →
      str "user" ∉ url_path_parts s →
      extract_username s = Except.error (PError.invalidIdentifier s)) := by
  constructor
  · intro sch host name tail hsch hhost hname htail hn
    obtain ⟨rest, hparts⟩ := url_path_parts_user sch host name tail hsch hhost hname htail hn
    have hpre : (str "http").isPrefixOf (str "http" ++ sch ++ str "://" ++ host
        ++ str "/user/" ++ name ++ str "/" ++ tail) = true := by
      rw [List.isPrefixOf_iff_prefix]
      have he : str "http" ++ sch ++ str "://" ++ host ++ str "/user/" ++ name ++ str "/" ++ tail
          = str "http" ++ (sch ++ (str "://" ++ (host ++ (str "/user/" ++ (name
              ++ (str "/" ++ tail)))))) := by
        simp only [List.append_assoc]
      rw [he]
      exact List.prefix_append _ _
    rw [extract_username, if_pos hpre, hparts]
    rfl
  · intro s hpre hnot
    rw [extract_username, if_pos hpre, idx_of_eq_none hnot]

/-- C1 witness: both parts of the amended theorem at concrete inputs
(`https://example.com/user/bob/` resolves to `bob`;
`https://example.com/profile/bob` raises). -/
theorem C1_witness :
    extract_username (str "http" ++ str "s" ++ str "://" ++ str "example.com"
        ++ str "/user/" ++ str "bob" ++ str "/" ++ str "") = Except.ok (str "bob") ∧
    extract_username (str "https://example.com/profile/bob") =
      Except.error (PError.invalidIdentifier (str "https://example.com/profile/bob")) :=
  ⟨C1_amended_username_extraction.1 (str "s") (str "example.com") (str "bob") (str "")
      (by decide) (by decide) (by decide) (by decide) (by decide),
    C1_amended_username_extraction.2 (str "https://example.com/profile/bob")
      (by decide) (by decide)⟩

lemma remove_u_slash_of_not : ∀ (l : List Char), has_u_slash l = false → remove_u_slash l = l := by
  intro l
  induction l using remove_u_slash.induct with
  | case1 cs ih =>
    intro h
    simp [has_u_slash] at h
  | case2 c cs hne ih =>
    intro h
    rw [remove_u_slash.eq_2 c cs hne, ih]
    rw [has_u_slash.eq_2] at h
    · exact h
    · intro cs' hc hcs
      exact hne cs' hc hcs
  | case3 => intro _; rfl

lemma remove_slash_u_slash_of_not : ∀ (l : List Char),
    has_slash_u_slash l = false → remove_slash_u_slash l = l := by
  intro l
  induction l using remove_slash_u_slash.induct with
  | case1 cs ih =>
    intro h
    simp [has_slash_u_slash] at h
  | case2 c cs hne ih =>
    intro h
    rw [remove_slash_u_slash.eq_2 c cs hne, ih]
    rw [has_slash_u_slash.eq_2] at h
    · exact h
    · intro cs' hc hcs
      exact hne cs' hc hcs
  | case3 => intro _; rfl

lemma has_u_slash_cons_false {c : Char} {cs : List Char}
    (h : has_u_slash (c :: cs) = false) : has_u_slash cs = false := by
  rw [has_u_slash.eq_def] at h
  split at h
  · exact absurd h (by simp)
  · rename_i hd tl hne heq
    injection heq with h1 h2
    rw [h2]
    exact h
  · simp_all

lemma not_slash_of_not_u : ∀ (l : List Char),
    has_u_slash l = false → has_slash_u_slash l = false := by
  intro l
  induction l with
  | nil => intro _; rfl
  | cons c cs ih =>
    intro h
    have h' : has_u_slash cs = false := has_u_slash_cons_false h
    rw [has_slash_u_slash.eq_def]
    split
    · rename_i x heq
      exfalso
      have hcs : cs = 'u' :: '/' :: x := by injection heq
      rw [hcs, has_u_slash.eq_1] at h'
      exact absurd h' (by simp)
    · rename_i hd tl hne heq
      injection heq with h1 h2
      rw [← h2]
      exact ih h'
    · rfl

lemma has_u_slash_slash_cons {l : List Char} (h : has_u_slash l = false) :
    has_u_slash ('/' :: l) = false := by
  rw [has_u_slash.eq_2 '/' l (fun cs' hc _ => absurd hc (by decide))]
  exact h

/-- C2 counterexample: `extract_username "/u/bob"` returns `"/bob"`, not
`"bob"` as the claim states for `/u/<name>` inputs; and the empty result for
input `"u/"` is returned as `""` instead of raising `InvalidIdentifier`. -/
theorem C2_counterexample :
    extract_username (str "/u/bob") = Except.ok (str "/bob") ∧
    (str "/bob" : List Char) ≠ str "bob" ∧
    extract_username (str "u/") = Except.ok [] := by
  decide

/-- C2 (amended): for every non-URL-shaped input, `extract_username` never
raises; it removes every occurrence of `"u/"` (and then `"/u/"`) from the
whole string rather than stripping a leading marker, so `u/<name>` and bare
`<name>` resolve to `<name>` but `/u/<name>` resolves to `/<name>`, and an
empty result is returned without error. -/
theorem C2_amended_handle_normalization :
    (∀ s : List Char, (str "http").isPrefixOf s = false →
      ∃ r, extract_username s = Except.ok r) ∧
    (∀ name : List Char, has_u_slash name = false →
      (str "http").isPrefixOf name = false →
      extract_username (str "u/" ++ name) = Except.ok name ∧
      extract_username (str "/u/" ++ name) = Except.ok ('/' :: name) ∧
      extract_username name = Except.ok name) := by
  have hbase : ∀ l : List Char, has_u_slash l = false →
      remove_slash_u_slash (remove_u_slash l) = l := by
    intro l h
    rw [remove_u_slash_of_not l h, remove_slash_u_slash_of_not l (not_slash_of_not_u l h)]
  constructor
  · intro s h
    refine ⟨remove_slash_u_slash (remove_u_slash s), ?_⟩
    rw [extract_username, if_neg (by rw [h]; exact Bool.false_ne_true)]
  · intro name hu hpre
    refine ⟨?_, ?_, ?_⟩
    · show extract_username ('u' :: '/' :: name) = Except.ok name
      have hfp : (str "http").isPrefixOf ('u' :: '/' :: name) = false := rfl
      rw [extract_username, if_neg (by rw [hfp]; exact Bool.false_ne_true)]
      rw [remove_u_slash.eq_1, remove_u_slash_of_not name hu,
        remove_slash_u_slash_of_not name (not_slash_of_not_u name hu)]
    · show extract_username ('/' :: 'u' :: '/' :: name) = Except.ok ('/' :: name)
      have hfp : (str "http").isPrefixOf ('/' :: 'u' :: '/' :: name) = false := rfl
      rw [extract_username, if_neg (by rw [hfp]; exact Bool.false_ne_true)]
      rw [remove_u_slash.eq_2 '/' ('u' :: '/' :: name) (fun cs' hc _ => absurd hc (by decide)),
        remove_u_slash.eq_1, remove_u_slash_of_not name hu,
        remove_slash_u_slash_of_not ('/' :: name) (not_slash_of_not_u _ (has_u_slash_slash_cons hu))]
    · rw [extract_username, if_neg (by rw [hpre]; exact Bool.false_ne_true), hbase name hu]

/-- C2 witness: the amended theorem at the concrete handles `xyz` and
`u/bob`. -/
theorem C2_witness :
    (∃ r, extract_username (str "xyz") = Except.ok r) ∧
    extract_username (str "u/" ++ str "bob") = Except.ok (str "bob") :=
  ⟨C2_amended_handle_normalization.1 (str "xyz") (by decide),
    (C2_amended_handle_normalization.2 (str "bob") (by decide) (by decide)).1⟩

/-- C10 counterexample: on `"/uu//"` the code returns `""`, while removing
every occurrence of `"u/"` (one left-to-right pass, Python's
`replace('u/','')`) gives `"/u/"`; the claim omits the second
`replace('/u/','')` pass, which fires exactly when the first pass leaves a
`"/u/"` substring. -/
theorem C10_counterexample :
    extract_username (str "/uu//") = Except.ok [] ∧
    remove_u_slash (str "/uu//") = str "/u/" ∧
    (str "/u/" : List Char) ≠ [] := by
  decide

/-- C10 (amended): for every non-URL-shaped input, `extract_username` never
raises and returns the input with every `"u/"` occurrence removed and then
every `"/u/"` occurrence removed from that intermediate result; whenever the
intermediate result contains no `"/u/"`, the output is exactly the input
with every `"u/"` occurrence removed wherever it appears. -/
theorem C10_amended_global_removal :
    ∀ s : List Char, (str "http").isPrefixOf s = false →
      extract_username s = Except.ok (remove_slash_u_slash (remove_u_slash s)) ∧
      (has_slash_u_slash (remove_u_slash s) = false →
        extract_username s = Except.ok (remove_u_slash s)) := by
  intro s h
  have hbr : extract_username s = Except.ok (remove_slash_u_slash (remove_u_slash s)) := by
    rw [extract_username, if_neg (by rw [h]; exact Bool.false_ne_true)]
  refine ⟨hbr, fun h2 => ?_⟩
  rw [hbr, remove_slash_u_slash_of_not _ h2]

/-- C10 witness: `abu/cd`, which contains `u/` in the middle, resolves to
`abcd`. -/
theorem C10_witness :
    extract_username (str "abu/cd") = Except.ok (str "abcd") := by
  have h := (C10_amended_global_removal (str "abu/cd") (by decide)).2 (by decide)
  rw [h]
  rfl

/-- C3: the corpus formatter emits, for any post body longer than 500
characters, exactly the first 500 characters followed by the `...` marker;
bodies of at most 500 characters are emitted unchanged.  The same law holds
for comments at the 300-character threshold. -/
theorem C3_truncation_law :
    ∀ body : List Char,
      (body.length > 500 →
        post_content_line body = str "Content: " ++ body.take 500 ++ str "...\n") ∧
      (body.length ≤ 500 → post_content_line body = str "Content: " ++ body ++ str "\n") ∧
      (body.length > 300 →
        comment_content_line body = str "Content: " ++ body.take 300 ++ str "...\n") ∧
      (body.length ≤ 300 → comment_content_line body = str "Content: " ++ body ++ str "\n") := by
  intro body
  refine ⟨fun h => ?_, fun h => ?_, fun h => ?_, fun h => ?_⟩
  · rw [post_content_line, if_pos h]
  · rw [post_content_line, if_neg (by omega)]
  · rw [comment_content_line, if_pos h]
  · rw [comment_content_line, if_neg (by omega)]

/-- C3 witness: a 501-character body is truncated with the marker and the
short body `hi` round-trips unchanged. -/
theorem C3_witness :
    post_content_line (List.replicate 501 'a')
      = str "Content: " ++ (List.replicate 501 'a').take 500 ++ str "...\n" ∧
    comment_content_line (str "hi") = str "Content: " ++ str "hi" ++ str "\n" :=
  ⟨(C3_truncation_law (List.replicate 501 'a')).1 (by rw [List.length_replicate]; omega),
    (C3_truncation_law (str "hi")).2.2.2 (by decide)⟩

/-- C4: the POSTS and COMMENTS sections each contain exactly
`min 25 fetched` blocks — never more than 25 however many were fetched —
and block `k` (0-based) renders the `k`-th fetched item numbered `k + 1`,
so iteration is in fetch order with numbering starting at 1. -/
theorem C4_section_caps :
    ∀ (posts comments : List RedditContent),
      (post_blocks posts).length = min 25 posts.length ∧
      (comment_blocks comments).length = min 25 comments.length ∧
      (∀ k : Nat, k < 25 →
        (post_blocks posts)[k]? = (posts[k]?).map (fun p => post_block (k + 1) p)) ∧
      (∀ k : Nat, k < 25 →
        (comment_blocks comments)[k]? = (comments[k]?).map (fun c => comment_block (k + 1) c)) := by
  intro posts comments
  refine ⟨?_, ?_, ?_, ?_⟩
  · rw [post_blocks, List.length_map, List.enumFrom_length, List.length_take]
  · rw [comment_blocks, List.length_map, List.enumFrom_length, List.length_take]
  · intro k hk
    rw [post_blocks, List.getElem?_map, List.getElem?_enumFrom, List.getElem?_take, if_pos hk]
    cases posts[k]? <;> simp [Nat.add_comm]
  · intro k hk
    rw [comment_blocks, List.getElem?_map, List.getElem?_enumFrom, List.getElem?_take, if_pos hk]
    cases comments[k]? <;> simp [Nat.add_comm]

/-- A concrete content item used by witnesses. -/
def sample_item : RedditContent :=
  { content_type := str "post", title := str "t", body := str "b", score := 1,
    created_utc := 0, subreddit := str "sub", url := str "u", permalink := str "p" }

/-- C4 witness: 26 fetched posts yield 25 blocks, and the block at index 3
is the fourth fetched post numbered 4. -/
theorem C4_witness :
    (post_blocks (List.replicate 26 sample_item)).length = min 25 26 ∧
    (post_blocks (List.replicate 26 sample_item))[3]? = some (post_block 4 sample_item) := by
  refine ⟨?_, ?_⟩
  · have h := (C4_section_caps (List.replicate 26 sample_item) []).1
    rw [h, List.length_replicate]
  · have h := (C4_section_caps (List.replicate 26 sample_item) []).2.2.1 3 (by decide)
    rw [h]
    rfl

/-- C9: every content record produced by the fetcher has a non-empty
permalink and, provided the platform reports non-empty community names, a
non-empty community; every comment record has a non-empty body and an empty
`url` (sourceUrl), so `body` may be empty only for submissions. -/
theorem C9_content_item_invariants :
    ∀ (subs : List RawSubmission) (rcs : List RawComment),
      (∀ s ∈ subs, s.subreddit ≠ []) →
      (∀ c ∈ rcs, c.subreddit ≠ []) →
      (∀ it ∈ (scrape_user_data subs rcs).1, it.permalink ≠ [] ∧ it.subreddit ≠ []) ∧
      (∀ it ∈ (scrape_user_data subs rcs).2,
        it.permalink ≠ [] ∧ it.subreddit ≠ [] ∧ it.body ≠ [] ∧ it.url = []) := by
  intro subs rcs hs hc
  constructor
  · intro it hit
    rw [scrape_user_data] at hit
    rw [scrape_posts] at hit
    obtain ⟨s, hsmem, rfl⟩ := List.mem_map.mp hit
    have hs' : s ∈ subs := List.mem_of_mem_filter hsmem
    refine ⟨?_, hs s hs'⟩
    show str "https://reddit.com" ++ s.permalink ≠ []
    intro hnil
    exact absurd (List.append_eq_nil.mp hnil).1 (by decide)
  · intro it hit
    rw [scrape_user_data] at hit
    rw [scrape_comments] at hit
    obtain ⟨c, hcmem, hfc⟩ := List.mem_filterMap.mp hit
    cases hb : c.body with
    | none =>
      simp only [hb] at hfc
      exact absurd hfc (by simp)
    | some b =>
      simp only [hb] at hfc
      split at hfc
      · exact absurd hfc (by simp)
      · rename_i hbe
        have hbf : b.isEmpty = false := by
          cases hbi : b.isEmpty
          · rfl
          · exact absurd hbi hbe
        obtain rfl : comment_to_content c b = it := by injection hfc
        refine ⟨?_, hc c hcmem, List.isEmpty_eq_false.mp hbf, rfl⟩
        show str "https://reddit.com" ++ c.permalink ≠ []
        intro hnil
        exact absurd (List.append_eq_nil.mp hnil).1 (by decide)

/-- Sample raw records for the C9 witness. -/
def sample_sub : RawSubmission :=
  { title := str "t", selftext := [], score := 1, created_utc := 0,
    subreddit := str "pics", url := str "http://x", permalink := str "/r/pics/1" }

def sample_com : RawComment :=
  { body := some (str "hello"), score := 2, created_utc := 0,
    subreddit := str "pics", permalink := str "/r/pics/2" }

/-- C9 witness: the invariants evaluated on one concrete submission and one
concrete comment. -/
theorem C9_witness :
    (submission_to_content sample_sub).permalink ≠ [] ∧
    (comment_to_content sample_com (str "hello")).body ≠ [] ∧
    (comment_to_content sample_com (str "hello")).url = [] := by
  have h := C9_content_item_invariants [sample_sub] [sample_com] (by decide) (by decide)
  exact ⟨(h.1 (submission_to_content sample_sub) (by decide)).1,
    (h.2 (comment_to_content sample_com (str "hello")) (by decide)).2.2.1,
    (h.2 (comment_to_content sample_com (str "hello")) (by decide)).2.2.2⟩

/-- C5: when the fetcher returns zero submissions and zero comments,
`generate_persona` fails with the no-content `ValueError` carrying the
username, no completion request is issued, and no file is written. -/
theorem C5_no_content_short_circuit :
    ∀ (input : List Char) (subs : List RawSubmission) (rcs : List RawComment)
      (resp : HttpResponse) (ts ds username : List Char),
      extract_username input = Except.ok username →
      scrape_posts subs = [] → scrape_comments rcs = [] →
      generate_persona input subs rcs resp ts ds =
        { api_called := false, file_written := none,
          result := Except.error (PError.noContentFound username) } := by
  intro input subs rcs resp ts ds username hex hp hcm
  simp only [generate_persona, hex, hp, hcm]
  rfl

/-- C6: when the completion endpoint responds with a non-200 status, the run
fails with a completion error carrying the status code and response body,
exactly one request was issued (no retry), and no output file is written. -/
theorem C6_completion_error_no_write :
    ∀ (input : List Char) (subs : List RawSubmission) (rcs : List RawComment)
      (resp : HttpResponse) (ts ds username : List Char),
      extract_username input = Except.ok username →
      ((scrape_posts subs).isEmpty && (scrape_comments rcs).isEmpty) = false →
      resp.status_code ≠ 200 →
      generate_persona input subs rcs resp ts ds =
        { api_called := true, file_written := none,
          result := Except.error (PError.completionError resp.status_code resp.text) } := by
  intro input subs rcs resp ts ds username hex hcond hstat
  have ha : analyze_persona
      (prepare_content_for_analysis (scrape_posts subs) (scrape_comments rcs)) username resp
      = Except.error (PError.completionError resp.status_code resp.text) := by
    rw [analyze_persona, if_pos hstat]
  simp only [generate_persona, hex, hcond, Bool.false_eq_true, if_false, ha]

/-- C8: on a successful run the report is written to
`output/<username>_persona_<timestamp>.txt` (the generator's output
directory is the constant `"output"` set in `__init__`), and the file
contains the header block (username, analysis date, item counts), the
model's raw report text unmodified, and the trailing `ANALYSIS COMPLETE`
marker, as laid out by `persona_file_contents`. -/
theorem C8_report_file :
    ∀ (input : List Char) (subs : List RawSubmission) (rcs : List RawComment)
      (resp : HttpResponse) (ts ds username persona : List Char),
      extract_username input = Except.ok username →
      ((scrape_posts subs).isEmpty && (scrape_comments rcs).isEmpty) = false →
      resp.status_code = 200 →
      resp.choice_content = some persona →
      generate_persona input subs rcs resp ts ds =
        { api_called := true,
          file_written := some
            (persona_output_dir ++ str "/" ++ (username ++ str "_persona_" ++ ts ++ str ".txt"),
              persona_file_contents username ds (scrape_posts subs).length
                (scrape_comments rcs).length persona),
          result := Except.ok
            (persona_output_dir ++ str "/" ++ (username ++ str "_persona_" ++ ts ++ str ".txt")) } := by
  intro input subs rcs resp ts ds username persona hex hcond hstat hcc
  have ha : analyze_persona
      (prepare_content_for_analysis (scrape_posts subs) (scrape_comments rcs)) username resp
      = Except.ok persona := by
    rw [analyze_persona, if_neg (fun hne => hne hstat), hcc]
  simp only [generate_persona, hex, hcond, Bool.false_eq_true, if_false, ha]

def sample_resp_ok : HttpResponse :=
  { status_code := 200, text := [], choice_content := some (str "REPORT") }

def sample_resp_bad : HttpResponse :=
  { status_code := 500, text := str "overloaded", choice_content := none }

/-- C5 witness: a run for `bob` with empty listings fails with
`NoContentFound` and `api_called = false`. -/
theorem C5_witness :
    generate_persona (str "bob") [] [] sample_resp_bad (str "20250101_000000")
        (str "2025-01-01 00:00:00") =
      { api_called := false, file_written := none,
        result := Except.error (PError.noContentFound (str "bob")) } :=
  C5_no_content_short_circuit (str "bob") [] [] sample_resp_bad _ _ (str "bob")
    (by decide) rfl rfl

/-- C6 witness: a 500 response with body `overloaded` aborts the run with
`CompletionError 500 "overloaded"` and `file_written = none`. -/
theorem C6_witness :
    generate_persona (str "bob") [sample_sub] [] sample_resp_bad (str "20250101_000000")
        (str "2025-01-01 00:00:00") =
      { api_called := true, file_written := none,
        result := Except.error (PError.completionError 500 (str "overloaded")) } :=
  C6_completion_error_no_write (str "bob") [sample_sub] [] sample_resp_bad _ _ (str "bob")
    (by decide) (by decide) (by decide)

/-- C8 witness: a successful run for `bob` writes
`output/bob_persona_20250101_000000.txt` with the expected contents. -/
theorem C8_witness :
    generate_persona (str "bob") [sample_sub] [] sample_resp_ok (str "20250101_000000")
        (str "2025-01-01 00:00:00") =
      { api_called := true,
        file_written := some
          (persona_output_dir ++ str "/" ++ (str "bob" ++ str "_persona_"
              ++ str "20250101_000000" ++ str ".txt"),
            persona_file_contents (str "bob") (str "2025-01-01 00:00:00")
              (scrape_posts [sample_sub]).length (scrape_comments []).length (str "REPORT")),
        result := Except.ok (persona_output_dir ++ str "/" ++ (str "bob" ++ str "_persona_"
            ++ str "20250101_000000" ++ str ".txt")) } :=
  C8_report_file (str "bob") [sample_sub] [] sample_resp_ok _ _ (str "bob") (str "REPORT")
    (by decide) (by decide) rfl rfl


/-- C7: for every environment in which at least one required configuration
value is falsy, `load_config` fails with a configuration error whose message
lists every missing key — the full `missing_configs` list, not just the
first — and `missing_configs` is exactly the ordered concatenation of one
uppercased config-dict key per falsy entry (`CLIENT_ID`, `CLIENT_SECRET`,
`USER_AGENT`, `API_KEY`, `API_URL`), so a key is listed precisely when its
value is missing.  In particular a run missing only the completion API key
fails listing exactly `API_KEY`.  `load_config` is pure in this embedding:
no network request is part of its behaviour. -/
theorem C7_config_missing_keys :
    (∀ env : Env, missing_configs env ≠ [] →
      load_config env = Except.error (PError.configurationError
        (str "Missing required environment variables: " ++ join_comma (missing_configs env)))) ∧
    (∀ env : Env, missing_configs env =
      (if is_falsy env.reddit_client_id = true then [str "CLIENT_ID"] else [])
      ++ (if is_falsy env.reddit_client_secret = true then [str "CLIENT_SECRET"] else [])
      ++ (if (getenv_default env.reddit_user_agent
            (str "RedditPersonaAnalyzer/1.0")).isEmpty = true then [str "USER_AGENT"] else [])
      ++ (if is_falsy env.openrouter_api_key = true then [str "API_KEY"] else [])
      ++ (if (getenv_default env.ai_api_url
            (str "https://openrouter.ai/api/v1/chat/completions")).isEmpty = true
          then [str "API_URL"] else [])) ∧
    (∀ env : Env,
      is_falsy env.reddit_client_id = false →
      is_falsy env.reddit_client_secret = false →
      is_falsy env.openrouter_api_key = true →
      (getenv_default env.reddit_user_agent (str "RedditPersonaAnalyzer/1.0")).isEmpty = false →
      (getenv_default env.ai_api_url
        (str "https://openrouter.ai/api/v1/chat/completions")).isEmpty = false →
      missing_configs env = [str "API_KEY"] ∧
      load_config env = Except.error (PError.configurationError
        (str "Missing required environment variables: API_KEY"))) := by
  have hfs : ∀ x : List Char, is_falsy (some x) = x.isEmpty := fun _ => rfl
  have hgen : ∀ env : Env, missing_configs env ≠ [] →
      load_config env = Except.error (PError.configurationError
        (str "Missing required environment variables: " ++ join_comma (missing_configs env))) := by
    intro env h
    rw [load_config, if_neg (by rw [List.isEmpty_eq_false.mpr h]; exact Bool.false_ne_true)]
  have hshape : ∀ env : Env, missing_configs env =
      (if is_falsy env.reddit_client_id = true then [str "CLIENT_ID"] else [])
      ++ (if is_falsy env.reddit_client_secret = true then [str "CLIENT_SECRET"] else [])
      ++ (if (getenv_default env.reddit_user_agent
            (str "RedditPersonaAnalyzer/1.0")).isEmpty = true then [str "USER_AGENT"] else [])
      ++ (if is_falsy env.openrouter_api_key = true then [str "API_KEY"] else [])
      ++ (if (getenv_default env.ai_api_url
            (str "https://openrouter.ai/api/v1/chat/completions")).isEmpty = true
          then [str "API_URL"] else []) := by
    intro env
    cases h1 : is_falsy env.reddit_client_id <;>
      cases h2 : is_falsy env.reddit_client_secret <;>
        cases h3 : is_falsy env.openrouter_api_key <;>
          cases h4 : (getenv_default env.reddit_user_agent
              (str "RedditPersonaAnalyzer/1.0")).isEmpty <;>
            cases h5 : (getenv_default env.ai_api_url
                (str "https://openrouter.ai/api/v1/chat/completions")).isEmpty <;>
              simp only [missing_configs, config_pairs, List.filter_cons, List.filter_nil,
                List.map_cons, List.map_nil, hfs, h1, h2, h3, h4, h5, eq_self_iff_true,
                Bool.false_eq_true, if_true, if_false] <;>
                decide
  refine ⟨hgen, hshape, ?_⟩
  intro env h1 h2 h3 h4 h5
  have hm : missing_configs env = [str "API_KEY"] := by
    rw [hshape env, h1, h2, h3, h4, h5]
    rfl
  refine ⟨hm, ?_⟩
  rw [hgen env (by rw [hm]; exact fun hx => List.noConfusion hx), hm]
  rfl

/-- C7 witness: an environment with two required values missing (the client
secret unset, the completion API key set to the empty string) fails listing
both `CLIENT_SECRET` and `API_KEY`, and an environment missing only the
completion API key fails listing exactly `API_KEY`. -/
theorem C7_witness :
    load_config
        { reddit_client_id := some (str "cid"), reddit_client_secret := none,
          reddit_user_agent := none, openrouter_api_key := some [], ai_api_url := none }
      = Except.error (PError.configurationError
          (str "Missing required environment variables: CLIENT_SECRET, API_KEY")) ∧
    missing_configs
        { reddit_client_id := some (str "cid"), reddit_client_secret := none,
          reddit_user_agent := none, openrouter_api_key := some [], ai_api_url := none }
      = [str "CLIENT_SECRET"] ++ [str "API_KEY"] ∧
    load_config
        { reddit_client_id := some (str "cid"), reddit_client_secret := some (str "csec"),
          reddit_user_agent := none, openrouter_api_key := none, ai_api_url := none }
      = Except.error (PError.configurationError
          (str "Missing required environment variables: API_KEY")) := by
  refine ⟨?_, ?_, ?_⟩
  · have h := C7_config_missing_keys.1
      { reddit_client_id := some (str "cid"), reddit_client_secret := none,
        reddit_user_agent := none, openrouter_api_key := some [], ai_api_url := none }
      (by decide)
    rw [h]
    rfl
  · have h := C7_config_missing_keys.2.1
      { reddit_client_id := some (str "cid"), reddit_client_secret := none,
        reddit_user_agent := none, openrouter_api_key := some [], ai_api_url := none }
    rw [h]
    rfl
  · exact (C7_config_missing_keys.2.2
      { reddit_client_id := some (str "cid"), reddit_client_secret := some (str "csec"),
        reddit_user_agent := none, openrouter_api_key := none, ai_api_url := none }
      (by decide) (by decide) (by decide) (by decide) (by decide)).2
